import Mathlib

/-!
Shallow embedding of the AMQP client core of the `scanii` repository:
`packages/communicator/src/amqp/producer.ts`, and the `SkaniiAmqpConsumer`
source appended after a document separator inside
`packages/communicator/src/http/__tests__/http-middlware.spec.ts` (lines
147-563 of that file), together with theorems settling the specification
claims about them.

Conventions of the embedding:
* TypeScript optional config fields become `Option` values; the constructor
  spread `{...defaults, ...config}` becomes `Option.getD`.
* The presence of the opaque `connection` / `channel` handles is modelled by
  `Bool` flags (the code only ever tests them for null-ness and sets both
  together on the paths relevant here).
* Asynchronous behaviour (event handlers, timers, the drain event, the
  poll-based wait) is modelled by explicit event traces and action lists:
  a method's observable behaviour is the list of channel/log actions it
  performs, in order.
-/

namespace Scanii

/-! ### Configuration (from `producer.ts`, interface `AmqpProducerConfig`) -/

inductive ExchangeType where
  | direct | topic | fanout | headers
deriving DecidableEq, Repr

/-- Caller-supplied producer configuration; `none` means the caller left the
field unspecified (from `AmqpProducerConfig` in `producer.ts`). -/
structure AmqpProducerConfig where
  url : String
  exchange : Option String := none
  exchangeType : Option ExchangeType := none
  durable : Option Bool := none
  reconnectAttempts : Option Nat := none
  reconnectDelay : Option Nat := none
deriving DecidableEq, Repr

/-- Fully-resolved producer configuration (`Required<AmqpProducerConfig>`). -/
structure ResolvedProducerConfig where
  url : String
  exchange : String
  exchangeType : ExchangeType
  durable : Bool
  reconnectAttempts : Nat
  reconnectDelay : Nat
deriving DecidableEq, Repr

/-- Constructor default-merging of `SkaniiAmqpProducer` (producer.ts lines
44-51): `{exchange: 'skanii', exchangeType: 'topic', durable: true,
reconnectAttempts: 5, reconnectDelay: 5000, ...config}`. -/
def resolveProducerConfig (c : AmqpProducerConfig) : ResolvedProducerConfig where
  url := c.url
  exchange := c.exchange.getD "skanii"
  exchangeType := c.exchangeType.getD .topic
  durable := c.durable.getD true
  reconnectAttempts := c.reconnectAttempts.getD 5
  reconnectDelay := c.reconnectDelay.getD 5000

/-- Caller-supplied consumer configuration; `none` means the caller left the
field unspecified (from interface `AmqpConsumerConfig`, consumer source lines
150-158, found in `http/__tests__/http-middlware.spec.ts` after the document
separator): the producer fields plus `prefetchCount`. -/
structure AmqpConsumerConfig where
  url : String
  exchange : Option String := none
  exchangeType : Option ExchangeType := none
  durable : Option Bool := none
  reconnectAttempts : Option Nat := none
  reconnectDelay : Option Nat := none
  prefetchCount : Option Nat := none
deriving DecidableEq, Repr

/-- Fully-resolved consumer configuration. -/
structure ResolvedConsumerConfig where
  url : String
  exchange : String
  exchangeType : ExchangeType
  durable : Bool
  reconnectAttempts : Nat
  reconnectDelay : Nat
  prefetchCount : Nat
deriving DecidableEq, Repr

/-- Constructor default-merging of `SkaniiAmqpConsumer` (consumer source
lines 197-205): `{exchange: 'skanii', exchangeType: 'topic', durable: true,
reconnectAttempts: 5, reconnectDelay: 5000, prefetchCount: 10, ...config}`. -/
def resolveConsumerConfig (c : AmqpConsumerConfig) : ResolvedConsumerConfig where
  url := c.url
  exchange := c.exchange.getD "skanii"
  exchangeType := c.exchangeType.getD .topic
  durable := c.durable.getD true
  reconnectAttempts := c.reconnectAttempts.getD 5
  reconnectDelay := c.reconnectDelay.getD 5000
  prefetchCount := c.prefetchCount.getD 10

/-! ### Producer connection state (fields of `SkaniiAmqpProducer`) -/

/-- The mutable connection-related fields of `SkaniiAmqpProducer`
(producer.ts lines 32-36): `connection` and `channel` are modelled by the
presence (`true`) or null-ness (`false`) of the opaque handle. -/
structure ProducerState where
  connection : Bool
  channel : Bool
  isConnecting : Bool
  reconnectCount : Nat
deriving DecidableEq, Repr

namespace ProducerState

/-- `isConnected()` (producer.ts line 256): `!!(this.connection && this.channel)`. -/
def isConnected (s : ProducerState) : Bool :=
  s.connection && s.channel

/-- Fresh instance right after the constructor ran. -/
def initial : ProducerState :=
  { connection := false, channel := false, isConnecting := false, reconnectCount := 0 }

end ProducerState

/-! ### `connect()` (producer.ts lines 68-116)

`connect()` has three entry paths, tested in this order:
1. `isConnecting` set → delegate to `waitForConnection()` (no transport call);
2. `isConnected()` → log and return (no transport call);
3. otherwise set `isConnecting`, attempt the transport connect / channel
   creation / exchange declaration, then either record the handles and reset
   `reconnectCount`, or clear `isConnecting` and rethrow.

The entry decision (which inspects and, on path 3, sets `isConnecting`) and
the completion of the attempt (which happens after awaiting the transport)
are modelled as two separate steps so that a second caller arriving while
the first caller's transport await is pending can be expressed. -/

inductive ConnectPath where
  | waitPath      -- line 69-74: wait for the in-flight attempt
  | alreadyPath   -- line 76-79: already connected, no-op
  | attemptPath   -- line 81 onwards: full connect sequence
deriving DecidableEq, Repr

/-- Entry of `connect()`: dispatch on `isConnecting` / `isConnected()`, and on
the full-sequence path set `isConnecting := true` (line 81). -/
def connectEntry (s : ProducerState) : ProducerState × ConnectPath :=
  if s.isConnecting then (s, .waitPath)
  else if s.isConnected then (s, .alreadyPath)
  else ({ s with isConnecting := true }, .attemptPath)

/-- Number of underlying transport connections `amqp.connect` opens on each
entry path: only the full sequence (line 88) touches the transport. -/
def ConnectPath.transportOpens : ConnectPath → Nat
  | .waitPath => 0
  | .alreadyPath => 0
  | .attemptPath => 1

/-- Completion of the full connect sequence (producer.ts lines 83-115),
given whether the transport/channel/exchange steps succeeded: on success the
handles are stored, `reconnectCount := 0` (line 100) and `isConnecting :=
false`; on failure `isConnecting := false` and the error is rethrown. -/
def connectComplete (s : ProducerState) (ok : Bool) : ProducerState × Except String Unit :=
  if ok then
    ({ s with connection := true, channel := true,
              reconnectCount := 0, isConnecting := false }, .ok ())
  else
    ({ s with isConnecting := false }, .error "connect error")

/-- `waitForConnection()` (producer.ts lines 263-278): a poll loop that
re-checks every 100ms. Each list entry is the `(isConnecting, isConnected)`
pair the callback observes at one poll; the loop concludes at the first poll
with `isConnecting = false`, resolving if connected and rejecting with
`Error('Connection failed')` otherwise. `none` means the loop never
concluded within the observed polls. -/
def waitForConnection : List (Bool × Bool) → Option (Except String Unit)
  | [] => none
  | (connecting, connected) :: rest =>
    if connecting then waitForConnection rest
    else some (if connected then .ok () else .error "Connection failed")

/-! ### Asynchronous error/close events and `scheduleReconnect`
(producer.ts lines 284-329) -/

/-- Observable bookkeeping of the reconnect machinery, beyond the instance
fields: timers scheduled by `scheduleReconnect` and not yet fired, the number
of timer-callback transport connect attempts, and whether the terminal
"Max reconnection attempts reached" log (line 308-311) was emitted. -/
structure ReconnectSim where
  ps : ProducerState
  pendingTimers : Nat
  timerConnectAttempts : Nat
  terminalLogged : Bool
deriving DecidableEq, Repr

/-- `scheduleReconnect()` (producer.ts lines 306-329): if
`reconnectCount >= reconnectAttempts`, log the terminal failure and return;
otherwise increment the counter and set a timer that will call `connect()`. -/
def scheduleReconnect (attempts : Nat) (s : ReconnectSim) : ReconnectSim :=
  if s.ps.reconnectCount ≥ attempts then
    { s with terminalLogged := true }
  else
    { s with ps := { s.ps with reconnectCount := s.ps.reconnectCount + 1 },
             pendingTimers := s.pendingTimers + 1 }

/-- `handleConnectionError` / `handleConnectionClose` (producer.ts lines
284-301): null out both handles, then `scheduleReconnect()`. Both handlers
have the same state effect. -/
def handleConnectionDrop (attempts : Nat) (s : ReconnectSim) : ReconnectSim :=
  scheduleReconnect attempts
    { s with ps := { s.ps with connection := false, channel := false } }

/-- A fired reconnect timer (producer.ts lines 319-328): the callback calls
`connect()` and only logs on failure (it never re-enters
`scheduleReconnect`). `ok` is the outcome the transport would give. Run
sequentially, `isConnecting` is false when the callback runs, so `connect()`
either early-returns (already connected) or performs the full sequence. -/
def timerFire (ok : Bool) (s : ReconnectSim) : ReconnectSim :=
  if s.pendingTimers = 0 then s
  else
    let s1 := { s with pendingTimers := s.pendingTimers - 1 }
    let (ps1, path) := connectEntry s1.ps
    match path with
    | .waitPath => { s1 with ps := ps1 }
    | .alreadyPath => { s1 with ps := ps1 }
    | .attemptPath =>
      { s1 with ps := (connectComplete ps1 ok).1,
                timerConnectAttempts := s1.timerConnectAttempts + 1 }

/-- One asynchronous happening in the life of a connected producer: a
transport error event, a transport close event, or the firing of a scheduled
reconnect timer whose `connect()` transport attempt has outcome `ok`. -/
inductive AsyncEvent where
  | errorEvent
  | closeEvent
  | timerEvent (ok : Bool)
deriving DecidableEq, Repr

/-- Event-trace semantics of the reconnect machinery. -/
def stepEvent (attempts : Nat) (s : ReconnectSim) : AsyncEvent → ReconnectSim
  | .errorEvent => handleConnectionDrop attempts s
  | .closeEvent => handleConnectionDrop attempts s
  | .timerEvent ok => timerFire ok s

/-- Run a sequence of asynchronous events. -/
def runEvents (attempts : Nat) (s : ReconnectSim) (evs : List AsyncEvent) : ReconnectSim :=
  evs.foldl (stepEvent attempts) s

/-- A producer that has just connected successfully: both handles present,
reconnect counter 0, no timers pending. -/
def connectedSim : ReconnectSim :=
  { ps := { connection := true, channel := true, isConnecting := false, reconnectCount := 0 },
    pendingTimers := 0, timerConnectAttempts := 0, terminalLogged := false }

/-! ### `publish` and `publishToQueue` (producer.ts lines 124-224)

Each call is modelled by the ordered list of observable actions it performs.
The broker write outcome is an input: `none` models the write throwing,
`some true` an immediately-accepted write, `some false` a write returning
`false` (outbound buffer full). Debug-level success logs are omitted. -/

inductive PubAction where
  | connectCall                  -- `await this.connect()` because channel was null
  | connectThrow                 -- that connect() rejected; its error propagates
  | assertQueue (durable : Bool) -- `assertQueue(queueName, {durable})` (line 190)
  | exchangeWrite                -- `channel.publish(exchange, routingKey, ...)` (line 144)
  | queueWrite                   -- `channel.sendToQueue(queueName, ...)` (line 200)
  | warnLog                      -- "Message not published/sent immediately (channel buffer full)"
  | awaitDrain                   -- `await new Promise(... channel.once('drain', resolve))`
  | resolveTrue                  -- the promise resolves with `true`
  | errorLogThrow                -- catch block: error log, rethrow
deriving DecidableEq, Repr

/-- `publish(message, options)` (producer.ts lines 124-171): connect if no
channel, write to the exchange, and on a full buffer warn and await drain
before resolving; a throwing write is logged and rethrown. -/
def publishActions (hasChannel connectOk : Bool) (writeOk : Option Bool) : List PubAction :=
  if !hasChannel && !connectOk then [.connectCall, .connectThrow]
  else
    (if hasChannel then [] else [.connectCall]) ++
    match writeOk with
    | none       => [.exchangeWrite, .errorLogThrow]
    | some true  => [.exchangeWrite, .resolveTrue]
    | some false => [.exchangeWrite, .warnLog, .awaitDrain, .resolveTrue]

/-- `publishToQueue(queueName, message, options)` (producer.ts lines
180-224): connect if no channel, assert the queue with the configured
durability, then `sendToQueue` with the same buffer-full and error handling
as `publish`. -/
def publishToQueueActions (hasChannel connectOk durable : Bool)
    (writeOk : Option Bool) : List PubAction :=
  if !hasChannel && !connectOk then [.connectCall, .connectThrow]
  else
    (if hasChannel then [] else [.connectCall]) ++
    ([.assertQueue durable] ++
      match writeOk with
      | none       => [.queueWrite, .errorLogThrow]
      | some true  => [.queueWrite, .resolveTrue]
      | some false => [.queueWrite, .warnLog, .awaitDrain, .resolveTrue])

/-! ### Consumer (`SkaniiAmqpConsumer`)

The consumer source is under src/ inside
`packages/communicator/src/http/__tests__/http-middlware.spec.ts`, appended
after a document separator (lines 147-563); line numbers below refer to that
file. Its connect/waitForConnection/error-close/scheduleReconnect code is
line-for-line the producer's and is covered by the definitions above. -/

/-- A channel-level acknowledgment call, with its resolved arguments: the
call sites `channel.ack(message)` (lines 330, 341 — amqplib's `allUpTo`
defaults to false), `channel.ack(message, allUpTo)` (line 428),
`channel.nack(message, false, requeue)` (lines 334, 357, 439) and
`channel.reject(message, requeue)` (line 450). The message argument is left
implicit: every call in one delivery context concerns that delivery's
message. -/
inductive ChanAckCall where
  | ackCall (allUpTo : Bool)
  | nackCall (allUpTo requeue : Bool)
  | rejectCall (requeue : Bool)
deriving DecidableEq, Repr

/-- `SkaniiAmqpConsumer.ack(message, allUpTo = false)` (lines 426-430):
`if (this.channel) this.channel.ack(message, allUpTo)` — a pass-through to
the channel if one exists, a silent no-op (never raises) otherwise. The
result is the list of channel calls issued; the `Option` argument models an
omitted optional parameter. -/
def consumerAck (hasChannel : Bool) (allUpTo : Option Bool) : List ChanAckCall :=
  if hasChannel then [.ackCall (allUpTo.getD false)] else []

/-- `SkaniiAmqpConsumer.nack(message, requeue = true)` (lines 437-441):
`if (this.channel) this.channel.nack(message, false, requeue)`. -/
def consumerNack (hasChannel : Bool) (requeue : Option Bool) : List ChanAckCall :=
  if hasChannel then [.nackCall false (requeue.getD true)] else []

/-- `SkaniiAmqpConsumer.reject(message, requeue = false)` (lines 448-452):
`if (this.channel) this.channel.reject(message, requeue)`. -/
def consumerReject (hasChannel : Bool) (requeue : Option Bool) : List ChanAckCall :=
  if hasChannel then [.rejectCall (requeue.getD false)] else []

/-- The delivery callback registered by `consume` (lines 326-361): a null
message is ignored without invoking the handler; otherwise the handler runs
(performing `handlerCalls` through its bound ack/nack callbacks) and then,
if `noAck` is false, the loop calls `channel.ack(message)` after a handler
that returned normally (line 341), and `channel.nack(message, false, true)`
in the catch block after a handler that threw (line 357); with `noAck` true
neither call is made. The catch-block error log is omitted. -/
def processDelivery (noAck : Bool) (delivery : Option String)
    (handlerCalls : List ChanAckCall) (handlerOk : Bool) : List ChanAckCall :=
  match delivery with
  | none => []
  | some _ =>
    handlerCalls ++
    if handlerOk then (if noAck then [] else [.ackCall false])
    else (if noAck then [] else [.nackCall false true])

/-- Caller-supplied options of `SkaniiAmqpConsumer.consume` (interface
`ConsumeOptions`, lines 160-169): every field but `queueName` is optional;
the destructuring defaults (line 290-299) are applied in `consumeActions`.
Queue arguments (`Record<string, any>`) are modelled as an association
list. -/
structure ConsumeOptions where
  queueName : String
  routingKeys : Option (List String) := none
  exchange : Option String := none
  exclusive : Option Bool := none
  autoDelete : Option Bool := none
  noAck : Option Bool := none
  consumerTag : Option String := none
  arguments : Option (List (String × String)) := none
deriving DecidableEq, Repr

/-- Broker operations issued by `consume` (in order). -/
inductive ConsumeAction where
  | connectCall
  | assertQueue (q : String) (durable exclusive autoDelete : Bool)
      (args : List (String × String))
  | bindQueue (q ex key : String)
  | consumeStart (q : String) (noAck : Bool) (tag : Option String) (exclusive : Bool)
deriving DecidableEq, Repr

/-- The routing keys actually bound by the bind loop of `consume` (lines
311-321): `if (routingKeys.length > 0)` one `bindQueue` per entry, `else`
a single `bindQueue` with the empty routing key. -/
def bindKeys (routingKeys : List String) : List String :=
  if routingKeys.isEmpty then [""] else routingKeys

/-- `SkaniiAmqpConsumer.consume(options, handler)` setup sequence (lines
285-367): `connect()` if no channel (lines 286-288), destructuring with
defaults `routingKeys = []`, `exchange = this.config.exchange`,
`exclusive = false`, `autoDelete = false`, `noAck = false`, `arguments = {}`
(lines 290-299), `assertQueue(queueName, {durable: this.config.durable,
exclusive, autoDelete, arguments})` (lines 303-308), the bind loop (lines
311-321), then `channel.consume(queueName, callback, {noAck, consumerTag,
exclusive})` (lines 324-367). The registry update and returned tag (lines
369-376) are not part of the broker-operation trace. -/
def consumeActions (hasChannel : Bool) (cfg : ResolvedConsumerConfig)
    (opts : ConsumeOptions) : List ConsumeAction :=
  (if hasChannel then [] else [.connectCall]) ++
  [.assertQueue opts.queueName cfg.durable
    (opts.exclusive.getD false) (opts.autoDelete.getD false)
    (opts.arguments.getD [])] ++
  (bindKeys (opts.routingKeys.getD [])).map
    (fun k => .bindQueue opts.queueName (opts.exchange.getD cfg.exchange) k) ++
  [.consumeStart opts.queueName (opts.noAck.getD false)
    opts.consumerTag (opts.exclusive.getD false)]

/-- Whether a consume-trace action is a queue-to-exchange bind. -/
def isBindAction : ConsumeAction → Bool
  | .bindQueue _ _ _ => true
  | _ => false

/-- Keep only the bind operations of a consume trace. -/
def bindsOf (tr : List ConsumeAction) : List ConsumeAction :=
  tr.filter isBindAction

/-! ### `getActiveConsumers` copy semantics

In the runtime, `Map` values are heap objects with identity;
`getActiveConsumers` returns `new Map(this.activeConsumers)`. To state the
fresh-copy property we model a tiny heap of maps: a map object is an index
into the heap, its contents an association list from queue name to
subscription tag. -/

/-- A heap of `Map<string, string>` objects; a map object reference is an
index into `maps`. -/
structure MapHeap where
  maps : List (List (String × String))
deriving DecidableEq, Repr

namespace MapHeap

/-- Contents of the map object `r` (empty if `r` is dangling). -/
def contentsOf (h : MapHeap) (r : Nat) : List (String × String) :=
  h.maps.getD r []

/-- `new Map(contents)`: allocate a fresh map object. -/
def alloc (h : MapHeap) (contents : List (String × String)) : Nat × MapHeap :=
  (h.maps.length, ⟨h.maps ++ [contents]⟩)

/-- Mutate the map object `r` in place. -/
def setMap (h : MapHeap) (r : Nat) (contents : List (String × String)) : MapHeap :=
  ⟨h.maps.set r contents⟩

end MapHeap

/-- `SkaniiAmqpConsumer.getActiveConsumers()` (lines 496-498):
`return new Map(this.activeConsumers)` — a freshly allocated map object
holding a copy of the internal registry's current contents. `registryRef`
is the heap reference of the internal `activeConsumers` map (line 189). -/
def getActiveConsumers (h : MapHeap) (registryRef : Nat) : Nat × MapHeap :=
  h.alloc (h.contentsOf registryRef)

/-! ### Trace helpers -/

/-- `firstBefore a b tr` holds when `a` occurs in `tr` and `b` occurs again
after the first occurrence of `a` (used to state "X happens before Y"). -/
def firstBefore [BEq α] (a b : α) : List α → Bool
  | [] => false
  | x :: rest => if x == a then rest.contains b else firstBefore a b rest

/-- Erase the queue-declaration step and identify the direct-to-queue write
with the exchange write, to compare `publishToQueue` traces with `publish`
traces. -/
def stripQueueSetup (tr : List PubAction) : List PubAction :=
  (tr.filter fun a => match a with
    | .assertQueue _ => false
    | _ => true).map fun a => match a with
    | .queueWrite => .exchangeWrite
    | a => a

/-! ## Claim theorems -/

/-- Claim C5: every Config field the caller leaves unspecified resolves to
its documented default (exchange "skanii", type topic, durable true,
reconnectAttempts 5, reconnect delay 5000 ms, prefetchCount 10 for the
consumer), and every caller-supplied field overrides the corresponding
default. -/
theorem c5_config_defaults_and_overrides :
    (∀ url : String,
      resolveProducerConfig { url := url } =
        { url := url, exchange := "skanii", exchangeType := .topic, durable := true,
          reconnectAttempts := 5, reconnectDelay := 5000 }) ∧
    (∀ url : String,
      resolveConsumerConfig { url := url } =
        { url := url, exchange := "skanii", exchangeType := .topic, durable := true,
          reconnectAttempts := 5, reconnectDelay := 5000, prefetchCount := 10 }) ∧
    (∀ (url e : String) (t : ExchangeType) (d : Bool) (ra rd : Nat),
      resolveProducerConfig
        { url := url, exchange := some e, exchangeType := some t, durable := some d,
          reconnectAttempts := some ra, reconnectDelay := some rd } =
        { url := url, exchange := e, exchangeType := t, durable := d,
          reconnectAttempts := ra, reconnectDelay := rd }) ∧
    (∀ (url e : String) (t : ExchangeType) (d : Bool) (ra rd pc : Nat),
      resolveConsumerConfig
        { url := url, exchange := some e, exchangeType := some t, durable := some d,
          reconnectAttempts := some ra, reconnectDelay := some rd,
          prefetchCount := some pc } =
        { url := url, exchange := e, exchangeType := t, durable := d,
          reconnectAttempts := ra, reconnectDelay := rd, prefetchCount := pc }) :=
  ⟨fun _ => rfl, fun _ => rfl, fun _ _ _ _ _ _ => rfl, fun _ _ _ _ _ _ _ => rfl⟩

/-- Claim C2: a `publish` on a connected producer whose broker write is not
immediately accepted (write returns false) is not treated as a failure: the
trace is exactly write, warning log, wait-for-drain, successful resolution —
so a warning is logged, the call does not resolve before the drain signal,
and it resolves successfully once the drain arrives. -/
theorem c2_publish_backpressure :
    ∀ connectOk : Bool,
      publishActions true connectOk (some false) =
        [.exchangeWrite, .warnLog, .awaitDrain, .resolveTrue] ∧
      (publishActions true connectOk (some false)).contains .warnLog = true ∧
      firstBefore .awaitDrain .resolveTrue (publishActions true connectOk (some false)) = true ∧
      firstBefore .resolveTrue .awaitDrain (publishActions true connectOk (some false)) = false ∧
      (publishActions true connectOk (some false)).contains .errorLogThrow = false := by
  decide

/-- Claim C6: `publishToQueue` on a client with no channel invokes
`connect()` before anything else (and a failed connect stops the call);
the queue is asserted with the configured durability before the send; the
send goes directly to the queue (no exchange write anywhere); and modulo the
queue declaration and the queue-vs-exchange write, the trace coincides with
`publish`'s — same backpressure (warn, await drain, then resolve) and error
(log and re-raise) semantics. -/
theorem c6_publish_to_queue :
    ∀ (hasChannel connectOk durable : Bool) (writeOk : Option Bool),
      ((publishToQueueActions false connectOk durable writeOk).head? = some .connectCall) ∧
      (publishToQueueActions false false durable writeOk = [.connectCall, .connectThrow]) ∧
      ((publishToQueueActions true connectOk durable writeOk).contains .connectCall = false) ∧
      (firstBefore (.assertQueue durable) .queueWrite
        (publishToQueueActions hasChannel true durable writeOk) = true) ∧
      ((publishToQueueActions hasChannel connectOk durable writeOk).contains
        .exchangeWrite = false) ∧
      (stripQueueSetup (publishToQueueActions hasChannel connectOk durable writeOk) =
        publishActions hasChannel connectOk writeOk) := by
  decide

/-- Claim C8: with no channel handle, `ack`, `nack` and `reject` issue no
channel call at all (they are total functions returning the empty call list,
i.e. no-ops that cannot raise); with a channel they pass through exactly one
call with defaults allUpTo = false for ack, requeue = true for nack and
requeue = false for reject, and caller-supplied flags are passed on. -/
theorem c8_ack_nack_reject_passthrough :
    ∀ (b : Option Bool) (u q : Bool),
      consumerAck false b = [] ∧
      consumerNack false b = [] ∧
      consumerReject false b = [] ∧
      consumerAck true none = [.ackCall false] ∧
      consumerNack true none = [.nackCall false true] ∧
      consumerReject true none = [.rejectCall false] ∧
      consumerAck true (some u) = [.ackCall u] ∧
      consumerNack true (some q) = [.nackCall false q] ∧
      consumerReject true (some q) = [.rejectCall q] := by
  decide

/-! Helper lemmas for the reconnect-counter invariant. -/

theorem scheduleReconnect_count_le (attempts : Nat) (s : ReconnectSim)
    (h : s.ps.reconnectCount ≤ attempts) :
    (scheduleReconnect attempts s).ps.reconnectCount ≤ attempts := by
  unfold scheduleReconnect
  split
  · exact h
  · rename_i hlt
    simp only [ge_iff_le, not_le] at hlt
    simpa using hlt

theorem timerFire_count_le (attempts : Nat) (ok : Bool) (s : ReconnectSim)
    (h : s.ps.reconnectCount ≤ attempts) :
    (timerFire ok s).ps.reconnectCount ≤ attempts := by
  unfold timerFire connectEntry
  split
  · exact h
  · by_cases hc : s.ps.isConnecting
    · simpa [hc] using h
    · by_cases hcon : s.ps.isConnected
      · simpa [hc, hcon] using h
      · cases ok
        · simpa [hc, hcon, connectComplete] using h
        · simp [hc, hcon, connectComplete]

theorem stepEvent_count_le (attempts : Nat) (s : ReconnectSim) (ev : AsyncEvent)
    (h : s.ps.reconnectCount ≤ attempts) :
    (stepEvent attempts s ev).ps.reconnectCount ≤ attempts := by
  cases ev with
  | errorEvent => exact scheduleReconnect_count_le attempts _ h
  | closeEvent => exact scheduleReconnect_count_le attempts _ h
  | timerEvent ok => exact timerFire_count_le attempts ok s h

/-- Claim C1: with reconnectAttempts = 2 and every timer-triggered reconnect
failing, the event trace "error, timer, error, timer, error, timer" makes
exactly 2 transport reconnect attempts, leaves no timer pending, and logs
the terminal failure (the third error event schedules nothing); in general,
once `reconnectCount ≥ reconnectAttempts` `scheduleReconnect` only sets the
terminal log and changes nothing else, and a successful full connect
sequence resets the reconnect counter to zero. -/
theorem c1_reconnect_gives_up_after_attempts :
    (runEvents 2 connectedSim
        [.errorEvent, .timerEvent false, .errorEvent, .timerEvent false,
         .errorEvent, .timerEvent false] =
      { ps := { connection := false, channel := false, isConnecting := false,
                reconnectCount := 2 },
        pendingTimers := 0, timerConnectAttempts := 2, terminalLogged := true }) ∧
    (∀ (attempts : Nat) (s : ReconnectSim),
      s.ps.reconnectCount ≥ attempts →
        scheduleReconnect attempts s = { s with terminalLogged := true }) ∧
    (∀ ps : ProducerState, ((connectComplete ps true).1).reconnectCount = 0) := by
  refine ⟨by decide, ?_, fun ps => rfl⟩
  intro attempts s h
  unfold scheduleReconnect
  rw [if_pos h]

/-- Closed witness for `c1_reconnect_gives_up_after_attempts`, applying its
hypothesis-bearing conjunct at a concrete exhausted state. -/
theorem c1_reconnect_gives_up_after_attempts_witness :
    (({ ps := { connection := false, channel := false, isConnecting := false,
                reconnectCount := 2 },
        pendingTimers := 0, timerConnectAttempts := 2,
        terminalLogged := false } : ReconnectSim).ps.reconnectCount ≥ 2) ∧
    scheduleReconnect 2
      { ps := { connection := false, channel := false, isConnecting := false,
                reconnectCount := 2 },
        pendingTimers := 0, timerConnectAttempts := 2, terminalLogged := false } =
      { ps := { connection := false, channel := false, isConnecting := false,
                reconnectCount := 2 },
        pendingTimers := 0, timerConnectAttempts := 2, terminalLogged := true } :=
  ⟨by decide, c1_reconnect_gives_up_after_attempts.2.1 2 _ (by decide)⟩

/-- Claim C9: along every sequence of error/close/timer events, the
reconnect counter never exceeds `reconnectAttempts` (it is only incremented
when strictly below the bound and reset to zero on a successful connect). -/
theorem c9_reconnect_counter_never_exceeds_bound :
    ∀ (attempts : Nat) (evs : List AsyncEvent) (s : ReconnectSim),
      s.ps.reconnectCount ≤ attempts →
      (runEvents attempts s evs).ps.reconnectCount ≤ attempts := by
  intro attempts evs
  induction evs with
  | nil => exact fun s h => h
  | cons e rest ih =>
    intro s h
    exact ih (stepEvent attempts s e) (stepEvent_count_le attempts s e h)

/-- Closed witness for `c9_reconnect_counter_never_exceeds_bound` at a
concrete event trace. -/
theorem c9_reconnect_counter_never_exceeds_bound_witness :
    connectedSim.ps.reconnectCount ≤ 2 ∧
    (runEvents 2 connectedSim
        [.errorEvent, .closeEvent, .errorEvent, .timerEvent true,
         .closeEvent]).ps.reconnectCount ≤ 2 :=
  ⟨by decide,
    c9_reconnect_counter_never_exceeds_bound 2
      [.errorEvent, .closeEvent, .errorEvent, .timerEvent true, .closeEvent]
      connectedSim (by decide)⟩

/-- Claim C3: a `connect()` call made while an attempt is in flight takes
the wait path (no transport connection is opened) and its outcome is that of
`waitForConnection`, which at the first poll observing the attempt concluded
resolves successfully when connected and fails with `Connection failed`
otherwise (polls observing a still-running attempt just continue); and on a
fresh disconnected state, a first `connect()` entry takes the full sequence
while a second entry arriving during it takes the wait path, so the two
calls together open exactly one transport connection. -/
theorem c3_concurrent_connect :
    (∀ s : ProducerState, s.isConnecting = true →
      connectEntry s = (s, .waitPath) ∧
      ConnectPath.transportOpens (connectEntry s).2 = 0) ∧
    (∀ (c : Bool) (rest : List (Bool × Bool)),
      waitForConnection ((false, c) :: rest) =
        some (if c then .ok () else .error "Connection failed") ∧
      waitForConnection ((true, c) :: rest) = waitForConnection rest) ∧
    (∀ n : Nat,
      (connectEntry
        { connection := false, channel := false,
          isConnecting := false, reconnectCount := n }).2 = .attemptPath ∧
      (connectEntry
        (connectEntry
          { connection := false, channel := false,
            isConnecting := false, reconnectCount := n }).1).2 = .waitPath ∧
      ConnectPath.transportOpens
          (connectEntry
            { connection := false, channel := false,
              isConnecting := false, reconnectCount := n }).2 +
        ConnectPath.transportOpens
          (connectEntry
            (connectEntry
              { connection := false, channel := false,
                isConnecting := false, reconnectCount := n }).1).2 = 1) := by
  refine ⟨?_, ?_, ?_⟩
  · intro s h
    constructor
    · simp [connectEntry, h]
    · simp [connectEntry, h, ConnectPath.transportOpens]
  · intro c rest
    constructor
    · simp [waitForConnection]
    · simp [waitForConnection]
  · intro n
    refine ⟨rfl, rfl, rfl⟩

/-- Closed witness for `c3_concurrent_connect`, applying the in-flight
conjunct at a concrete state with `isConnecting` set. -/
theorem c3_concurrent_connect_witness :
    (({ connection := false, channel := false, isConnecting := true,
        reconnectCount := 0 } : ProducerState).isConnecting = true) ∧
    connectEntry
        { connection := false, channel := false, isConnecting := true,
          reconnectCount := 0 } =
      ({ connection := false, channel := false, isConnecting := true,
         reconnectCount := 0 }, .waitPath) :=
  ⟨rfl,
    (c3_concurrent_connect.1
      { connection := false, channel := false, isConnecting := true,
        reconnectCount := 0 } rfl).1⟩

/-- Claim C4: for a delivered non-null message with noAck = false the
delivery loop appends an automatic `ack` after a successful handler (in
addition to whatever channel calls the handler itself made) and an automatic
`nack` with requeue = true after a failing handler; with noAck = true it
appends nothing in either case. -/
theorem c4_delivery_ack_nack :
    ∀ (m : String) (handlerCalls : List ChanAckCall),
      processDelivery false (some m) handlerCalls true =
        handlerCalls ++ [.ackCall false] ∧
      processDelivery false (some m) handlerCalls false =
        handlerCalls ++ [.nackCall false true] ∧
      processDelivery true (some m) handlerCalls true = handlerCalls ∧
      processDelivery true (some m) handlerCalls false = handlerCalls := by
  intro m handlerCalls
  refine ⟨rfl, rfl, ?_, ?_⟩ <;> simp [processDelivery]

/-! Helper lemma: the bind operations of a consume trace. -/

theorem bindsOf_consumeActions (hasChannel : Bool) (cfg : ResolvedConsumerConfig)
    (opts : ConsumeOptions) :
    bindsOf (consumeActions hasChannel cfg opts) =
      (bindKeys (opts.routingKeys.getD [])).map
        (fun k => .bindQueue opts.queueName (opts.exchange.getD cfg.exchange) k) := by
  have hkeep :
      List.filter isBindAction
          ((bindKeys (opts.routingKeys.getD [])).map fun k =>
            ConsumeAction.bindQueue opts.queueName (opts.exchange.getD cfg.exchange) k) =
        (bindKeys (opts.routingKeys.getD [])).map fun k =>
          ConsumeAction.bindQueue opts.queueName (opts.exchange.getD cfg.exchange) k := by
    rw [List.filter_eq_self]
    intro a ha
    obtain ⟨k, _, rfl⟩ := List.mem_map.mp ha
    rfl
  cases hasChannel <;>
    simp [consumeActions, bindsOf, List.filter_append, hkeep, isBindAction]

/-- Claim C7: every `consume` call binds the queue to the exchange exactly
once per entry of `routingKeys` (one bind per key, in order, and nothing
else); with an empty (or absent, defaulting to empty) `routingKeys` list it
binds exactly once with the empty-string routing key. -/
theorem c7_bind_once_per_routing_key :
    ∀ (hasChannel : Bool) (cfg : ResolvedConsumerConfig) (opts : ConsumeOptions),
      (opts.routingKeys.getD [] = [] →
        bindsOf (consumeActions hasChannel cfg opts) =
          [.bindQueue opts.queueName (opts.exchange.getD cfg.exchange) ""]) ∧
      (opts.routingKeys.getD [] ≠ [] →
        bindsOf (consumeActions hasChannel cfg opts) =
          (opts.routingKeys.getD []).map
            (fun k => .bindQueue opts.queueName (opts.exchange.getD cfg.exchange) k)) := by
  intro hasChannel cfg opts
  constructor
  · intro hempty
    rw [bindsOf_consumeActions]
    simp [bindKeys, hempty]
  · intro hne
    rw [bindsOf_consumeActions]
    simp [bindKeys, hne]

/-- Closed witness for `c7_bind_once_per_routing_key`, applying it with an
empty and with a two-element routing-key list. -/
theorem c7_bind_once_per_routing_key_witness :
    ((some ([] : List String)).getD [] = [] ∧
      bindsOf (consumeActions true
          { url := "amqp://localhost", exchange := "test-exchange",
            exchangeType := .topic, durable := true, reconnectAttempts := 3,
            reconnectDelay := 1000, prefetchCount := 5 }
          { queueName := "test-queue", routingKeys := some [] }) =
        [.bindQueue "test-queue" "test-exchange" ""]) ∧
    ((some (["k1", "k2"] : List String)).getD [] ≠ [] ∧
      bindsOf (consumeActions true
          { url := "amqp://localhost", exchange := "test-exchange",
            exchangeType := .topic, durable := true, reconnectAttempts := 3,
            reconnectDelay := 1000, prefetchCount := 5 }
          { queueName := "custom-queue", routingKeys := some ["k1", "k2"] }) =
        ["k1", "k2"].map (fun k => .bindQueue "custom-queue" "test-exchange" k)) :=
  ⟨⟨rfl,
    (c7_bind_once_per_routing_key true
      { url := "amqp://localhost", exchange := "test-exchange",
        exchangeType := .topic, durable := true, reconnectAttempts := 3,
        reconnectDelay := 1000, prefetchCount := 5 }
      { queueName := "test-queue", routingKeys := some [] }).1 rfl⟩,
   ⟨by decide,
    (c7_bind_once_per_routing_key true
      { url := "amqp://localhost", exchange := "test-exchange",
        exchangeType := .topic, durable := true, reconnectAttempts := 3,
        reconnectDelay := 1000, prefetchCount := 5 }
      { queueName := "custom-queue", routingKeys := some ["k1", "k2"] }).2
      (by decide)⟩⟩

/-! Helper lemmas about the map heap. -/

theorem MapHeap.contentsOf_alloc_self (h : MapHeap) (c : List (String × String)) :
    ((h.alloc c).2).contentsOf (h.alloc c).1 = c := by
  simp [alloc, contentsOf, List.getD_eq_getElem?_getD, List.getElem?_concat_length]

theorem MapHeap.contentsOf_alloc_old (h : MapHeap) (c : List (String × String))
    (r : Nat) (hr : r < h.maps.length) :
    ((h.alloc c).2).contentsOf r = h.contentsOf r := by
  simp [alloc, contentsOf, List.getD_eq_getElem?_getD, List.getElem?_append_left hr]

theorem MapHeap.contentsOf_setMap_ne (h : MapHeap) (i r : Nat)
    (c : List (String × String)) (hne : i ≠ r) :
    (h.setMap i c).contentsOf r = h.contentsOf r := by
  simp [setMap, contentsOf, List.getD_eq_getElem?_getD, List.getElem?_set_ne hne]

/-- Claim C10: `getActiveConsumers` returns a fresh copy of the registry:
two successive calls return distinct map objects with equal contents (both
equal to the registry's contents), and mutating either returned map leaves
the internal registry's contents unchanged. -/
theorem c10_get_active_consumers_fresh_copy :
    ∀ (h : MapHeap) (r : Nat), r < h.maps.length →
      (getActiveConsumers h r).1 ≠ (getActiveConsumers (getActiveConsumers h r).2 r).1 ∧
      (getActiveConsumers (getActiveConsumers h r).2 r).2.contentsOf
          (getActiveConsumers h r).1 =
        (getActiveConsumers (getActiveConsumers h r).2 r).2.contentsOf
          (getActiveConsumers (getActiveConsumers h r).2 r).1 ∧
      (getActiveConsumers (getActiveConsumers h r).2 r).2.contentsOf
          (getActiveConsumers h r).1 = h.contentsOf r ∧
      (∀ c : List (String × String),
        ((getActiveConsumers (getActiveConsumers h r).2 r).2.setMap
            (getActiveConsumers h r).1 c).contentsOf r = h.contentsOf r ∧
        ((getActiveConsumers (getActiveConsumers h r).2 r).2.setMap
            (getActiveConsumers (getActiveConsumers h r).2 r).1 c).contentsOf r =
          h.contentsOf r) := by
  intro h r hr
  have hr1 : r < (getActiveConsumers h r).2.maps.length := by
    show r < (h.maps ++ [h.contentsOf r]).length
    simp
    omega
  have hcopy1 : (getActiveConsumers h r).2.contentsOf r = h.contentsOf r :=
    MapHeap.contentsOf_alloc_old h _ r hr
  have hself1 :
      (getActiveConsumers h r).2.contentsOf (getActiveConsumers h r).1 = h.contentsOf r :=
    MapHeap.contentsOf_alloc_self h _
  have hcopy2 :
      (getActiveConsumers (getActiveConsumers h r).2 r).2.contentsOf r = h.contentsOf r :=
    (MapHeap.contentsOf_alloc_old (getActiveConsumers h r).2 _ r hr1).trans hcopy1
  have hid1 : (getActiveConsumers h r).1 = h.maps.length := rfl
  have hid2 : (getActiveConsumers (getActiveConsumers h r).2 r).1 = h.maps.length + 1 := by
    show (getActiveConsumers h r).2.maps.length = h.maps.length + 1
    show (h.maps ++ [h.contentsOf r]).length = h.maps.length + 1
    simp
  have hold2 :
      (getActiveConsumers (getActiveConsumers h r).2 r).2.contentsOf
          (getActiveConsumers h r).1 = h.contentsOf r := by
    have hlt : (getActiveConsumers h r).1 < (getActiveConsumers h r).2.maps.length := by
      rw [hid1]
      show h.maps.length < (h.maps ++ [h.contentsOf r]).length
      simp
    exact (MapHeap.contentsOf_alloc_old (getActiveConsumers h r).2 _ _ hlt).trans hself1
  have hself2 :
      (getActiveConsumers (getActiveConsumers h r).2 r).2.contentsOf
          (getActiveConsumers (getActiveConsumers h r).2 r).1 = h.contentsOf r :=
    (MapHeap.contentsOf_alloc_self (getActiveConsumers h r).2 _).trans hcopy1
  refine ⟨?_, ?_, hold2, ?_⟩
  · rw [hid1, hid2]
    omega
  · rw [hold2, hself2]
  · intro c
    have hne1 : (getActiveConsumers h r).1 ≠ r := by
      rw [hid1]
      omega
    have hne2 : (getActiveConsumers (getActiveConsumers h r).2 r).1 ≠ r := by
      rw [hid2]
      omega
    exact ⟨(MapHeap.contentsOf_setMap_ne _ _ _ c hne1).trans hcopy2,
           (MapHeap.contentsOf_setMap_ne _ _ _ c hne2).trans hcopy2⟩

/-- Closed witness for `c10_get_active_consumers_fresh_copy` at a one-map
heap holding a single registry entry. -/
theorem c10_get_active_consumers_fresh_copy_witness :
    0 < (MapHeap.mk [[("queue1", "test-consumer-tag")]]).maps.length ∧
    ((getActiveConsumers (MapHeap.mk [[("queue1", "test-consumer-tag")]]) 0).1 ≠
      (getActiveConsumers
        (getActiveConsumers (MapHeap.mk [[("queue1", "test-consumer-tag")]]) 0).2 0).1 ∧
     (getActiveConsumers
        (getActiveConsumers (MapHeap.mk [[("queue1", "test-consumer-tag")]]) 0).2 0).2.contentsOf
         (getActiveConsumers (MapHeap.mk [[("queue1", "test-consumer-tag")]]) 0).1 =
       (getActiveConsumers
         (getActiveConsumers (MapHeap.mk [[("queue1", "test-consumer-tag")]]) 0).2 0).2.contentsOf
         (getActiveConsumers
           (getActiveConsumers (MapHeap.mk [[("queue1", "test-consumer-tag")]]) 0).2 0).1 ∧
     (getActiveConsumers
        (getActiveConsumers (MapHeap.mk [[("queue1", "test-consumer-tag")]]) 0).2 0).2.contentsOf
         (getActiveConsumers (MapHeap.mk [[("queue1", "test-consumer-tag")]]) 0).1 =
       (MapHeap.mk [[("queue1", "test-consumer-tag")]]).contentsOf 0 ∧
     (∀ c : List (String × String),
       ((getActiveConsumers
           (getActiveConsumers (MapHeap.mk [[("queue1", "test-consumer-tag")]]) 0).2 0).2.setMap
           (getActiveConsumers (MapHeap.mk [[("queue1", "test-consumer-tag")]]) 0).1 c).contentsOf
           0 = (MapHeap.mk [[("queue1", "test-consumer-tag")]]).contentsOf 0 ∧
       ((getActiveConsumers
           (getActiveConsumers (MapHeap.mk [[("queue1", "test-consumer-tag")]]) 0).2 0).2.setMap
           (getActiveConsumers
             (getActiveConsumers (MapHeap.mk [[("queue1", "test-consumer-tag")]]) 0).2 0).1
           c).contentsOf 0 =
         (MapHeap.mk [[("queue1", "test-consumer-tag")]]).contentsOf 0)) :=
  ⟨by decide,
    c10_get_active_consumers_fresh_copy
      (MapHeap.mk [[("queue1", "test-consumer-tag")]]) 0 (by decide)⟩

end Scanii
